import Mathlib

/-!
Shallow embedding of the quota-aware geocoding pipeline of `app.py`
(`load_request_count`, `save_request_count`, `correct_address_with_gemini`,
`refine_coordinates`, `geocode_address`, `perform_geocoding`).

External effects are made explicit:
* Python values flowing through `json` / pandas cells are modelled by `JVal`
  (Python is dynamically typed, so dataframe cells and parsed JSON can hold
  any of these shapes).
* The durable quota file is a `FileState`; reading it can find it absent,
  unreadable (an `open`/read error), corrupt (a `json.load` error) or a
  stored JSON value.
* Each external call (Gemini `generate_content`, `gmaps.geocode`, the file
  write in `save_request_count`) is driven by an oracle describing the
  outcome of that call; the per-record oracles are collected in `RecordEnv`.
* `st.error` / `st.warning` calls become `Report` values accumulated in a
  list; uncaught Python exceptions become the `Except.error` branch of the
  result, carrying a `PyExn`.
-/

/-- A dynamic (JSON-like) Python value: what `json.load`/`json.loads` can
return and what a dataframe cell can hold. -/
inductive JVal where
  | jnull
  | jbool (b : Bool)
  | jnum (n : Int)
  | jstr (s : String)
  | jarr (xs : List JVal)
  | jobj (fields : List (String × JVal))

/-- A message surfaced on the Streamlit reporting channel
(`st.error` / `st.warning`). -/
inductive Report where
  | error (msg : String)
  | warning (msg : String)
  deriving DecidableEq

/-- An uncaught Python exception aborting `perform_geocoding`. -/
inductive PyExn where
  | transportError (msg : String)
  | ioError (msg : String)
  | keyError (key : String)
  | typeError (msg : String)
  deriving DecidableEq

/-- State of the durable quota file `request_count.json`. -/
inductive FileState where
  | absent
  | unreadable
  | corrupt
  | stored (v : JVal)

/-- `REQUEST_LIMIT = 9800` (app.py line 20). -/
def REQUEST_LIMIT : Int := 9800

/-- The fresh quota dict `{"month": current_month, "count": 0}`. -/
def freshState (m : String) : JVal :=
  .jobj [("month", .jstr m), ("count", .jnum 0)]

/-- `load_request_count` (app.py lines 22-35). `currentMonth` stands for
`datetime.now().strftime("%Y-%m")`. The function only opens the file for
reading, so it returns the durable state unchanged as the second component.
The `if data.get("month") != current_month` test sits inside the `try`, so a
stored value that is not a dict (whose `.get` raises `AttributeError`) also
degrades to the fresh state. -/
def load_request_count (currentMonth : String) (fs : FileState) : JVal × FileState :=
  match fs with
  | .absent => (freshState currentMonth, fs)
  | .unreadable => (freshState currentMonth, fs)
  | .corrupt => (freshState currentMonth, fs)
  | .stored v =>
    match v with
    | .jobj fields =>
      match fields.lookup "month" with
      | some (.jstr m) =>
        if m = currentMonth then (.jobj fields, fs) else (freshState currentMonth, fs)
      | _ => (freshState currentMonth, fs)
    | _ => (freshState currentMonth, fs)

/-- `save_request_count` (app.py lines 37-40): opens the file for writing and
dumps `data`. There is no `try`/`except`: a storage failure (the oracle
`outcome = some e`) raises and propagates to the caller. -/
def save_request_count (data : JVal) (outcome : Option PyExn) : Except PyExn FileState :=
  match outcome with
  | some e => .error e
  | none => .ok (.stored data)

/-- Does `pat` occur as a contiguous sublist of the second argument? -/
def hasSubList (pat : List Char) : List Char → Bool
  | [] => pat.isEmpty
  | c :: rest => pat.isPrefixOf (c :: rest) || hasSubList pat rest

/-- Python's `pat in s` substring test on strings. -/
def strContains (s pat : String) : Bool :=
  hasSubList pat.data s.data

/-- Python's `str.strip()`: drop whitespace from both ends. -/
def pyStrip (s : String) : String :=
  ⟨((s.data.dropWhile Char.isWhitespace).reverse.dropWhile Char.isWhitespace).reverse⟩

/-- Outcome of one `model.generate_content` call as observed by
`correct_address_with_gemini`. -/
inductive GemResult where
  | ok (text : String)
  | noText
  | exn (msg : String)

/-- `correct_address_with_gemini` (app.py lines 48-60), with the Gemini call
abstracted by its outcome. `ok t` is a response with a `text` attribute (the
code strips it); `noText` is a falsy response or one without `text`
(`corrected = ""`); `exn msg` is a raised exception whose string form is
`msg`. Returns the produced address value together with the reports emitted.
The original address is a `JVal` because it comes from a dataframe cell. -/
def correct_address_with_gemini (out : GemResult) (address : JVal) : JVal × List Report :=
  match out with
  | .ok t =>
    let corrected := pyStrip t
    (if corrected = "" then address else .jstr corrected, [])
  | .noText => (address, [])
  | .exn msg =>
    if strContains msg "429" then (address, [])
    else (address, [.error ("Gemini API 補正エラー: " ++ msg)])

/-- Outcome of `model.generate_content` followed by `json.loads` on the
stripped response text, as observed by `refine_coordinates`. `parsed v` is a
successful parse to `v`; `parseError` is a `json.JSONDecodeError` (raised by
`json.loads` on empty or unparseable text); `exn msg` is an exception raised
by the Gemini call itself. -/
inductive RefineOutcome where
  | parsed (v : JVal)
  | parseError
  | exn (msg : String)

/-- Does the Python test `"s" in xs` hold for a list `xs`? Membership is by
`==`, which for a string operand only matches equal strings. -/
def listHasStr (xs : List JVal) (s : String) : Bool :=
  xs.any (fun v => match v with | .jstr t => t = s | _ => false)

def refineKeyWarning : Report :=
  .warning "Gemini からの応答に期待するキーがありません。"

def refineTypeErrorReport : Report :=
  .error "Gemini API 座標精度向上エラー: TypeError"

/-- `refine_coordinates` (app.py lines 63-88), with the Gemini call and JSON
parse abstracted by `out`. For a parsed dict, `"lat" in refined and "lng" in
refined` is key membership and `refined["lat"]`/`refined["lng"]` are returned
verbatim, whatever their type. For a parsed list or string, the `in` test is
element / substring membership and, when it succeeds, the subscript
`refined["lat"]` raises `TypeError`, caught by the generic handler (an
`st.error` report, fallback returned). For other parsed values the `in` test
itself raises `TypeError`, likewise caught. `JSONDecodeError` and
429-classified exceptions are silent; every path returns a value. -/
def refine_coordinates (out : RefineOutcome) (current_lat current_lng : JVal) :
    (JVal × JVal) × List Report :=
  match out with
  | .parseError => ((current_lat, current_lng), [])
  | .exn msg =>
    if strContains msg "429" then ((current_lat, current_lng), [])
    else ((current_lat, current_lng), [.error ("Gemini API 座標精度向上エラー: " ++ msg)])
  | .parsed v =>
    match v with
    | .jobj fields =>
      match fields.lookup "lat", fields.lookup "lng" with
      | some la, some ln => ((la, ln), [])
      | some _, none => ((current_lat, current_lng), [refineKeyWarning])
      | none, _ => ((current_lat, current_lng), [refineKeyWarning])
    | .jstr s =>
      if strContains s "lat" && strContains s "lng" then
        ((current_lat, current_lng), [refineTypeErrorReport])
      else ((current_lat, current_lng), [refineKeyWarning])
    | .jarr xs =>
      if listHasStr xs "lat" && listHasStr xs "lng" then
        ((current_lat, current_lng), [refineTypeErrorReport])
      else ((current_lat, current_lng), [refineKeyWarning])
    | _ => ((current_lat, current_lng), [refineTypeErrorReport])

/-- One candidate of a geocode response: the code reads
`r['geometry']['location_type']` and `r['geometry']['location']['lat'/'lng']`. -/
structure Candidate where
  location_type : String
  lat : JVal
  lng : JVal

/-- Outcome of one `gmaps.geocode` call. `ok` is a returned candidate list;
`apiError` is a raised `googlemaps.exceptions.ApiError`; `otherExn` is any
other raised exception (`Timeout`, `TransportError`, `HTTPError`, ...), which
`geocode_address` does not catch. -/
inductive GeoOutcome where
  | ok (candidates : List Candidate)
  | apiError (msg : String)
  | otherExn (e : PyExn)

/-- `geocode_address` (app.py lines 91-97): only `ApiError` is caught
(reported via `st.error`, `None` returned); any other exception propagates. -/
def geocode_address (out : GeoOutcome) :
    Except PyExn (Option (List Candidate) × List Report) :=
  match out with
  | .ok cands => .ok (some cands, [])
  | .apiError msg => .ok (none, [.error ("Google Maps API エラー: " ++ msg)])
  | .otherExn e => .error e

/-- Candidate selection (app.py lines 132-136): the first `ROOFTOP` candidate
if any, else the first candidate. -/
def select_location (c0 : Candidate) (cs : List Candidate) : Candidate :=
  match (c0 :: cs).filter (fun c => c.location_type == "ROOFTOP") with
  | r :: _ => r
  | [] => c0

/-- One input dataframe row: its cells, keyed by column name. -/
structure Row where
  fields : List (String × JVal)

/-- One output dataframe row: the input cells plus the `latitude` and
`longitude` columns created by `df['latitude'] = None` /
`df['longitude'] = None` and possibly overwritten by `df.at`. -/
structure OutRow where
  fields : List (String × JVal)
  latitude : JVal
  longitude : JVal

/-- A row as it stands when never written by `df.at`: both added cells
hold `None`. -/
def blankRow (r : Row) : OutRow :=
  ⟨r.fields, .jnull, .jnull⟩

/-- Per-record oracle: the outcomes of the record's Gemini normalization
call, geocode call, Gemini refinement call, and quota-file write. -/
structure RecordEnv where
  gem : GemResult
  geo : GeoOutcome
  ref : RefineOutcome
  saveExn : Option PyExn

/-- Final state of a completed `perform_geocoding` run. -/
structure RunResult where
  rows : List OutRow
  success_count : Nat
  fail_count : Nat
  monthly_count : JVal
  fs : FileState
  reports : List Report

/-- Python's `monthly_count >= REQUEST_LIMIT` on a dynamic value: defined for
ints and bools (bools are ints in Python), `TypeError` otherwise. -/
def pyGeLimit : JVal → Except PyExn Bool
  | .jnum n => .ok (decide (n ≥ REQUEST_LIMIT))
  | .jbool b => .ok (decide ((if b then (1 : Int) else 0) ≥ REQUEST_LIMIT))
  | _ => .error (.typeError "unorderable types")

/-- Python's `monthly_count += 1` on a dynamic value. -/
def pyInc : JVal → Except PyExn JVal
  | .jnum n => .ok (.jnum (n + 1))
  | .jbool b => .ok (.jnum ((if b then (1 : Int) else 0) + 1))
  | _ => .error (.typeError "unsupported operand")

/-- Python dict assignment `d[k] = v`: replace in place, append if absent. -/
def assocSet : List (String × JVal) → String → JVal → List (String × JVal)
  | [], k, v => [(k, v)]
  | (k', v') :: rest, k, v =>
    if k' = k then (k, v) :: rest else (k', v') :: assocSet rest k v

/-- `st.warning` message emitted when the ceiling is hit (app.py line 117). -/
def quotaWarnMsg : String :=
  "月間ジオコーディングリクエスト上限（9800件）に達しました。"

/-- Prepend the finished output row for the current record to the rows of the
rest of the run (the list model of the in-place `df.at` updates). -/
def withRow (r : OutRow) (res : RunResult) : RunResult :=
  { res with rows := r :: res.rows }

/-- The `for index, row in df.iterrows()` loop of `perform_geocoding`
(app.py lines 115-147), one record per step. Arguments: remaining rows, the
iteration index `i` (selecting the oracle `env i`), the `counter_data` dict
fields, the running `monthly_count`, the success and fail counters, the
durable file state, and the reports emitted so far. -/
def runLoop (env : Nat → RecordEnv) (input_col : String) :
    List Row → Nat → List (String × JVal) → JVal → Nat → Nat → FileState →
    List Report → Except PyExn RunResult
  | [], _, _counter, mc, sc, fc, fs, reps => .ok ⟨[], sc, fc, mc, fs, reps⟩
  | row :: rest, i, counter, mc, sc, fc, fs, reps =>
    match pyGeLimit mc with
    | .error e => .error e
    | .ok true =>
      .ok ⟨(row :: rest).map blankRow, sc, fc, mc, fs, reps ++ [.warning quotaWarnMsg]⟩
    | .ok false =>
      match row.fields.lookup input_col with
      | none => .error (.keyError input_col)
      | some original_address =>
        let norm := correct_address_with_gemini (env i).gem original_address
        match geocode_address (env i).geo with
        | .error e => .error e
        | .ok (geocode_result, geoReps) =>
          match pyInc mc with
          | .error e => .error e
          | .ok mc' =>
            let counter' := assocSet counter "count" mc'
            match save_request_count (.jobj counter') (env i).saveExn with
            | .error e => .error e
            | .ok fs' =>
              match geocode_result with
              | some (c0 :: cs) =>
                let location := select_location c0 cs
                let r := refine_coordinates (env i).ref location.lat location.lng
                (runLoop env input_col rest (i + 1) counter' mc' (sc + 1) fc fs'
                    (reps ++ norm.2 ++ geoReps ++ r.2)).map
                  (withRow ⟨row.fields, r.1.1, r.1.2⟩)
              | _ =>
                (runLoop env input_col rest (i + 1) counter' mc' sc (fc + 1) fs'
                    (reps ++ norm.2 ++ geoReps)).map (withRow (blankRow row))

/-- `perform_geocoding` (app.py lines 100-157): load the counter, read
`counter_data["count"]` (a `KeyError` if the stored dict for the current
month lacks it), then run the per-record loop. -/
def perform_geocoding (currentMonth : String) (fs0 : FileState)
    (env : Nat → RecordEnv) (input_col : String) (rows : List Row) :
    Except PyExn RunResult :=
  match load_request_count currentMonth fs0 with
  | (.jobj fields, fs1) =>
    match fields.lookup "count" with
    | some mc => runLoop env input_col rows 0 fields mc 0 0 fs1 []
    | none => .error (.keyError "count")
  | (_, _) => .error (.typeError "not subscriptable")

/-! Concrete runs used below to exercise the pipeline. -/

/-- A one-column input row. -/
def exRow : Row := ⟨[("address", .jstr "東京都千代田区1-1")]⟩

/-- Oracle: normalization yields no text, the geocode call raises a
`Timeout`-style transport exception. -/
def envTransport : Nat → RecordEnv := fun _ =>
  ⟨.noText, .otherExn (.transportError "timeout"), .parseError, none⟩

/-- Oracle: geocode returns an empty candidate list, then the quota-file
write fails with an I/O error. -/
def envSaveFail : Nat → RecordEnv := fun _ =>
  ⟨.noText, .ok [], .parseError, some (.ioError "No space left on device")⟩

/-- Oracle: one ROOFTOP candidate; the refinement response parses to a JSON
object whose `lat`/`lng` values are strings. -/
def envStrCoords : Nat → RecordEnv := fun _ =>
  ⟨.noText, .ok [⟨"ROOFTOP", .jnum 35, .jnum 139⟩],
   .parsed (.jobj [("lat", .jstr "35.0x"), ("lng", .jstr "139.0y")]), none⟩

/-- Oracle: the geocode call raises `ApiError` (the one exception
`geocode_address` catches). -/
def envApiErr : Nat → RecordEnv := fun _ =>
  ⟨.noText, .apiError "REQUEST_DENIED", .parseError, none⟩

/-- Oracle: the geocode call returns an empty candidate list and the
quota-file write succeeds. -/
def envOkEmpty : Nat → RecordEnv := fun _ =>
  ⟨.noText, .ok [], .parseError, none⟩

/-- Oracle: an `APPROXIMATE` candidate ahead of a `ROOFTOP` one; the
refinement response is a JSON object with a string `lat` and a numeric
`lng`. -/
def envMixed : Nat → RecordEnv := fun _ =>
  ⟨.noText, .ok [⟨"APPROXIMATE", .jnum 10, .jnum 20⟩, ⟨"ROOFTOP", .jnum 30, .jnum 40⟩],
   .parsed (.jobj [("lat", .jstr "not-a-number"), ("lng", .jnum 139)]), none⟩

/-- Is a cell value a number or `None`? (the shapes the spec allows for the
output `latitude`/`longitude` cells). -/
def isNumOrNull : JVal → Bool
  | .jnum _ => true
  | .jnull => true
  | _ => false

/-! Shared helper lemmas. -/

lemma headD_filter_eq_find (p : α → Bool) (d : α) :
    ∀ l : List α, (l.filter p).headD d = (l.find? p).getD d := by
  intro l
  induction l with
  | nil => rfl
  | cons a l ih =>
    by_cases h : p a
    · simp [List.filter_cons, List.find?_cons, h]
    · simp only [List.filter_cons, List.find?_cons, h]
      simp [h, ih]

lemma select_location_eq_headD (c0 : Candidate) (cs : List Candidate) :
    select_location c0 cs =
      (((c0 :: cs).filter (fun c => c.location_type == "ROOFTOP")).headD c0) := by
  cases h : (c0 :: cs).filter (fun c => c.location_type == "ROOFTOP") with
  | nil => simp [select_location, h]
  | cons r rs => simp [select_location, h]

lemma load_request_count_snd (m : String) (fs : FileState) :
    (load_request_count m fs).2 = fs := by
  rcases fs with _ | _ | _ | v
  · rfl
  · rfl
  · rfl
  · rcases v with _ | b | n | s | xs | fields
    · rfl
    · rfl
    · rfl
    · rfl
    · rfl
    · rcases h : fields.lookup "month" with _ | mv
      · simp [load_request_count, h]
      · rcases mv with _ | b | n | s | xs | f2
        · simp [load_request_count, h]
        · simp [load_request_count, h]
        · simp [load_request_count, h]
        · by_cases hm : s = m <;> simp [load_request_count, h, hm]
        · simp [load_request_count, h]
        · simp [load_request_count, h]

lemma forall₂_fields_map_blank (l : List Row) :
    List.Forall₂ (fun (r : Row) (o : OutRow) => o.fields = r.fields) l (l.map blankRow) := by
  induction l with
  | nil => exact List.Forall₂.nil
  | cons a l ih => exact List.Forall₂.cons rfl ih

lemma runLoop_apiError_step (env : Nat → RecordEnv) (ic : String) (row : Row)
    (rest : List Row) (i : Nat) (counter : List (String × JVal)) (n : Int)
    (sc fc : Nat) (fs : FileState) (reps : List Report) (addr : JVal) (msg : String)
    (hn : n < REQUEST_LIMIT) (haddr : row.fields.lookup ic = some addr)
    (hgeo : (env i).geo = .apiError msg) (hsave : (env i).saveExn = none) :
    runLoop env ic (row :: rest) i counter (.jnum n) sc fc fs reps =
      (runLoop env ic rest (i + 1) (assocSet counter "count" (.jnum (n + 1)))
          (.jnum (n + 1)) sc (fc + 1)
          (.stored (.jobj (assocSet counter "count" (.jnum (n + 1)))))
          (reps ++ (correct_address_with_gemini (env i).gem addr).2 ++
            [.error ("Google Maps API エラー: " ++ msg)])).map (withRow (blankRow row)) := by
  have hlt : decide (REQUEST_LIMIT ≤ n) = false := by
    simp [not_le.mpr hn]
  simp [runLoop, pyGeLimit, hlt, haddr, hgeo, geocode_address, pyInc,
    save_request_count, hsave]

lemma runLoop_okEmpty_step (env : Nat → RecordEnv) (ic : String) (row : Row)
    (rest : List Row) (i : Nat) (counter : List (String × JVal)) (n : Int)
    (sc fc : Nat) (fs : FileState) (reps : List Report) (addr : JVal)
    (hn : n < REQUEST_LIMIT) (haddr : row.fields.lookup ic = some addr)
    (hgeo : (env i).geo = .ok []) (hsave : (env i).saveExn = none) :
    runLoop env ic (row :: rest) i counter (.jnum n) sc fc fs reps =
      (runLoop env ic rest (i + 1) (assocSet counter "count" (.jnum (n + 1)))
          (.jnum (n + 1)) sc (fc + 1)
          (.stored (.jobj (assocSet counter "count" (.jnum (n + 1)))))
          (reps ++ (correct_address_with_gemini (env i).gem addr).2)).map
        (withRow (blankRow row)) := by
  have hlt : decide (REQUEST_LIMIT ≤ n) = false := by
    simp [not_le.mpr hn]
  simp [runLoop, pyGeLimit, hlt, haddr, hgeo, geocode_address, pyInc,
    save_request_count, hsave]

lemma runLoop_okCons_step (env : Nat → RecordEnv) (ic : String) (row : Row)
    (rest : List Row) (i : Nat) (counter : List (String × JVal)) (n : Int)
    (sc fc : Nat) (fs : FileState) (reps : List Report) (addr : JVal)
    (c0 : Candidate) (cs : List Candidate)
    (hn : n < REQUEST_LIMIT) (haddr : row.fields.lookup ic = some addr)
    (hgeo : (env i).geo = .ok (c0 :: cs)) (hsave : (env i).saveExn = none) :
    runLoop env ic (row :: rest) i counter (.jnum n) sc fc fs reps =
      (runLoop env ic rest (i + 1) (assocSet counter "count" (.jnum (n + 1)))
          (.jnum (n + 1)) (sc + 1) fc
          (.stored (.jobj (assocSet counter "count" (.jnum (n + 1)))))
          (reps ++ (correct_address_with_gemini (env i).gem addr).2 ++
            (refine_coordinates (env i).ref (select_location c0 cs).lat
              (select_location c0 cs).lng).2)).map
        (withRow ⟨row.fields,
          (refine_coordinates (env i).ref (select_location c0 cs).lat
            (select_location c0 cs).lng).1.1,
          (refine_coordinates (env i).ref (select_location c0 cs).lat
            (select_location c0 cs).lng).1.2⟩) := by
  have hlt : decide (REQUEST_LIMIT ≤ n) = false := by
    simp [not_le.mpr hn]
  simp [runLoop, pyGeLimit, hlt, haddr, hgeo, geocode_address, pyInc,
    save_request_count, hsave]

lemma runLoop_saveFail_step (env : Nat → RecordEnv) (ic : String) (row : Row)
    (rest : List Row) (i : Nat) (counter : List (String × JVal)) (n : Int)
    (sc fc : Nat) (fs : FileState) (reps : List Report) (addr : JVal) (ex : PyExn)
    (hn : n < REQUEST_LIMIT) (haddr : row.fields.lookup ic = some addr)
    (hgeo : ∀ e, (env i).geo ≠ .otherExn e) (hsave : (env i).saveExn = some ex) :
    runLoop env ic (row :: rest) i counter (.jnum n) sc fc fs reps = .error ex := by
  have hlt : decide (REQUEST_LIMIT ≤ n) = false := by
    simp [not_le.mpr hn]
  rcases hg : (env i).geo with cands | msg | e
  · simp [runLoop, pyGeLimit, hlt, haddr, hg, geocode_address, pyInc,
      save_request_count, hsave]
  · simp [runLoop, pyGeLimit, hlt, haddr, hg, geocode_address, pyInc,
      save_request_count, hsave]
  · exact absurd hg (hgeo e)

/-- C1: whenever the in-memory monthly count is at least `REQUEST_LIMIT` at
the start of a record, the loop breaks: that record and all subsequent
records are skipped (their `latitude`/`longitude` stay `None`), the quota
warning is emitted, and the counters and durable state are untouched. The
right-hand side does not mention `env`, so no normalizer, geocoding or
refinement oracle is consulted for any remaining record. -/
theorem quota_ceiling_halts_loop (env : Nat → RecordEnv) (ic : String) (row : Row)
    (rest : List Row) (i : Nat) (counter : List (String × JVal)) (n : Int)
    (sc fc : Nat) (fs : FileState) (reps : List Report)
    (hn : REQUEST_LIMIT ≤ n) :
    runLoop env ic (row :: rest) i counter (.jnum n) sc fc fs reps =
      .ok ⟨(row :: rest).map blankRow, sc, fc, .jnum n, fs,
        reps ++ [.warning quotaWarnMsg]⟩ := by
  simp [runLoop, pyGeLimit, decide_eq_true hn]

theorem quota_ceiling_halts_loop_witness :
    runLoop envMixed "address" [exRow, exRow] 0
        [("month", .jstr "2026-10"), ("count", .jnum 9800)] (.jnum 9800) 0 0
        .absent [] =
      .ok ⟨[blankRow exRow, blankRow exRow], 0, 0, .jnum 9800, .absent,
        [.warning quotaWarnMsg]⟩ :=
  quota_ceiling_halts_loop envMixed "address" exRow [exRow] 0
    [("month", .jstr "2026-10"), ("count", .jnum 9800)] 9800 0 0 .absent []
    (by decide)

/-- C2: a record that passes the quota check consumes exactly one unit of
quota — whatever the geocode call's outcome (non-empty candidates, empty
candidates, or an `ApiError` reported as no result), the rest of the run is
entered with the in-memory count at `n + 1` and with the durable state
already overwritten by the updated counter dict. -/
theorem quota_counts_every_call (env : Nat → RecordEnv) (ic : String) (row : Row)
    (rest : List Row) (i : Nat) (counter : List (String × JVal)) (n : Int)
    (sc fc : Nat) (fs : FileState) (reps : List Report) (addr : JVal)
    (hn : n < REQUEST_LIMIT) (haddr : row.fields.lookup ic = some addr)
    (hsave : (env i).saveExn = none) (hgeo : ∀ e, (env i).geo ≠ .otherExn e) :
    ∃ (out : OutRow) (sc' fc' : Nat) (reps' : List Report),
      runLoop env ic (row :: rest) i counter (.jnum n) sc fc fs reps =
        (runLoop env ic rest (i + 1) (assocSet counter "count" (.jnum (n + 1)))
            (.jnum (n + 1)) sc' fc'
            (.stored (.jobj (assocSet counter "count" (.jnum (n + 1))))) reps').map
          (withRow out) := by
  rcases hg : (env i).geo with cands | msg | e
  · rcases cands with _ | ⟨c0, cs⟩
    · exact ⟨blankRow row, sc, fc + 1, _,
        runLoop_okEmpty_step env ic row rest i counter n sc fc fs reps addr
          hn haddr hg hsave⟩
    · exact ⟨_, sc + 1, fc, _,
        runLoop_okCons_step env ic row rest i counter n sc fc fs reps addr c0 cs
          hn haddr hg hsave⟩
  · exact ⟨blankRow row, sc, fc + 1, _,
      runLoop_apiError_step env ic row rest i counter n sc fc fs reps addr msg
        hn haddr hg hsave⟩
  · exact absurd hg (hgeo e)

theorem quota_counts_every_call_witness :
    ∃ (out : OutRow) (sc' fc' : Nat) (reps' : List Report),
      runLoop envOkEmpty "address" [exRow] 0
          [("month", .jstr "2026-10"), ("count", .jnum 5)] (.jnum 5) 0 0 .absent [] =
        (runLoop envOkEmpty "address" [] 1
            (assocSet [("month", .jstr "2026-10"), ("count", .jnum 5)] "count" (.jnum 6))
            (.jnum 6) sc' fc'
            (.stored (.jobj (assocSet [("month", .jstr "2026-10"), ("count", .jnum 5)]
              "count" (.jnum 6)))) reps').map (withRow out) :=
  quota_counts_every_call envOkEmpty "address" exRow [] 0
    [("month", .jstr "2026-10"), ("count", .jnum 5)] 5 0 0 .absent []
    (.jstr "東京都千代田区1-1") (by decide) rfl rfl
    (by intro e h; simp [envOkEmpty] at h)

/-- C3: the resolver picks the first `ROOFTOP` candidate in service order if
one exists, else the first candidate (`List.find?` returns the first match);
and when the candidate list is empty the record's cells stay `None` and the
fail count (only) is incremented while the run continues. -/
theorem rooftop_selection_policy :
    (∀ c0 cs, select_location c0 cs =
      ((c0 :: cs).find? (fun c => c.location_type == "ROOFTOP")).getD c0)
  ∧ (∀ (env : Nat → RecordEnv) (ic : String) (row : Row) (rest : List Row)
      (i : Nat) (counter : List (String × JVal)) (n : Int) (sc fc : Nat)
      (fs : FileState) (reps : List Report) (addr : JVal),
      n < REQUEST_LIMIT → row.fields.lookup ic = some addr →
      (env i).geo = .ok [] → (env i).saveExn = none →
      runLoop env ic (row :: rest) i counter (.jnum n) sc fc fs reps =
        (runLoop env ic rest (i + 1) (assocSet counter "count" (.jnum (n + 1)))
            (.jnum (n + 1)) sc (fc + 1)
            (.stored (.jobj (assocSet counter "count" (.jnum (n + 1)))))
            (reps ++ (correct_address_with_gemini (env i).gem addr).2)).map
          (withRow (blankRow row))) := by
  constructor
  · intro c0 cs
    rw [select_location_eq_headD]
    exact headD_filter_eq_find _ c0 (c0 :: cs)
  · intro env ic row rest i counter n sc fc fs reps addr hn haddr hgeo hsave
    exact runLoop_okEmpty_step env ic row rest i counter n sc fc fs reps addr
      hn haddr hgeo hsave

theorem rooftop_selection_policy_witness :
    (select_location ⟨"APPROXIMATE", .jnum 10, .jnum 20⟩
        [⟨"ROOFTOP", .jnum 30, .jnum 40⟩] = ⟨"ROOFTOP", .jnum 30, .jnum 40⟩)
  ∧ (runLoop envOkEmpty "address" [exRow] 7
        [("month", .jstr "2026-10"), ("count", .jnum 41)] (.jnum 41) 3 4 .corrupt [] =
      (runLoop envOkEmpty "address" [] 8
          (assocSet [("month", .jstr "2026-10"), ("count", .jnum 41)] "count" (.jnum 42))
          (.jnum 42) 3 5
          (.stored (.jobj (assocSet [("month", .jstr "2026-10"), ("count", .jnum 41)]
            "count" (.jnum 42))))
          ([] ++ (correct_address_with_gemini (envOkEmpty 7).gem
            (.jstr "東京都千代田区1-1")).2)).map (withRow (blankRow exRow))) :=
  ⟨by rw [rooftop_selection_policy.1]; rfl,
   rooftop_selection_policy.2 envOkEmpty "address" exRow [] 7
     [("month", .jstr "2026-10"), ("count", .jnum 41)] 41 3 4 .corrupt []
     (.jstr "東京都千代田区1-1") (by decide) rfl rfl rfl⟩

/-- C4 counterexample: a `Timeout`-class transport exception raised by the
geocode call is not caught anywhere (`geocode_address` catches only
`ApiError`), so it aborts the whole run instead of degrading the record to
`NotFound` and continuing. -/
theorem transport_error_aborts_run :
    perform_geocoding "2026-10" .absent envTransport "address" [exRow] =
      .error (.transportError "timeout") := rfl

/-- C4 (amended): an `ApiError` raised during a record's resolution is
reported on the error channel and the record is treated as `NotFound`
(cells stay `None`, fail count incremented) with processing continuing at
the next record; but `Timeout`/`TransportError`/`HTTPError`-class geocode
exceptions and quota-save failures are not caught and abort the run. -/
theorem api_error_reported_and_run_continues (env : Nat → RecordEnv) (ic : String)
    (row : Row) (rest : List Row) (i : Nat) (counter : List (String × JVal))
    (n : Int) (sc fc : Nat) (fs : FileState) (reps : List Report) (addr : JVal)
    (msg : String) (hn : n < REQUEST_LIMIT)
    (haddr : row.fields.lookup ic = some addr)
    (hgeo : (env i).geo = .apiError msg) (hsave : (env i).saveExn = none) :
    runLoop env ic (row :: rest) i counter (.jnum n) sc fc fs reps =
      (runLoop env ic rest (i + 1) (assocSet counter "count" (.jnum (n + 1)))
          (.jnum (n + 1)) sc (fc + 1)
          (.stored (.jobj (assocSet counter "count" (.jnum (n + 1)))))
          (reps ++ (correct_address_with_gemini (env i).gem addr).2 ++
            [.error ("Google Maps API エラー: " ++ msg)])).map
        (withRow (blankRow row)) :=
  runLoop_apiError_step env ic row rest i counter n sc fc fs reps addr msg
    hn haddr hgeo hsave

theorem api_error_reported_and_run_continues_witness :
    runLoop envApiErr "address" [exRow] 0
        [("month", .jstr "2026-10"), ("count", .jnum 0)] (.jnum 0) 0 0 .absent [] =
      (runLoop envApiErr "address" [] 1
          (assocSet [("month", .jstr "2026-10"), ("count", .jnum 0)] "count" (.jnum 1))
          (.jnum 1) 0 1
          (.stored (.jobj (assocSet [("month", .jstr "2026-10"), ("count", .jnum 0)]
            "count" (.jnum 1))))
          ([] ++ (correct_address_with_gemini (envApiErr 0).gem
              (.jstr "東京都千代田区1-1")).2 ++
            [.error ("Google Maps API エラー: " ++ "REQUEST_DENIED")])).map
        (withRow (blankRow exRow)) :=
  api_error_reported_and_run_continues envApiErr "address" exRow [] 0
    [("month", .jstr "2026-10"), ("count", .jnum 0)] 0 0 0 .absent []
    (.jstr "東京都千代田区1-1") "REQUEST_DENIED" (by decide) rfl rfl rfl

/-- C5 counterexample: a storage failure inside `save_request_count` is
caught nowhere (neither there nor in `perform_geocoding`), so the run aborts
instead of continuing best-effort. -/
theorem save_failure_aborts_run :
    perform_geocoding "2026-10" .absent envSaveFail "address" [exRow] =
      .error (.ioError "No space left on device") := rfl

/-- C5 (amended): if persisting the quota state fails, the exception
propagates out of `save_request_count` through the loop and the whole run
aborts with it; remaining records are not processed. -/
theorem save_failure_propagates (env : Nat → RecordEnv) (ic : String) (row : Row)
    (rest : List Row) (i : Nat) (counter : List (String × JVal)) (n : Int)
    (sc fc : Nat) (fs : FileState) (reps : List Report) (addr : JVal) (ex : PyExn)
    (hn : n < REQUEST_LIMIT) (haddr : row.fields.lookup ic = some addr)
    (hgeo : ∀ e, (env i).geo ≠ .otherExn e) (hsave : (env i).saveExn = some ex) :
    runLoop env ic (row :: rest) i counter (.jnum n) sc fc fs reps = .error ex :=
  runLoop_saveFail_step env ic row rest i counter n sc fc fs reps addr ex
    hn haddr hgeo hsave

theorem save_failure_propagates_witness :
    runLoop envSaveFail "address" [exRow] 0
        [("month", .jstr "2026-10"), ("count", .jnum 2)] (.jnum 2) 0 0 .absent [] =
      .error (.ioError "No space left on device") :=
  save_failure_propagates envSaveFail "address" exRow [] 0
    [("month", .jstr "2026-10"), ("count", .jnum 2)] 2 0 0 .absent []
    (.jstr "東京都千代田区1-1") (.ioError "No space left on device")
    (by decide) rfl (by intro e h; simp [envSaveFail] at h) rfl

lemma runLoop_fields_pres (env : Nat → RecordEnv) (ic : String) :
    ∀ (rows : List Row) (i : Nat) (counter : List (String × JVal)) (mc : JVal)
      (sc fc : Nat) (fs : FileState) (reps : List Report) (res : RunResult),
      runLoop env ic rows i counter mc sc fc fs reps = .ok res →
      List.Forall₂ (fun (r : Row) (o : OutRow) => o.fields = r.fields) rows res.rows := by
  intro rows
  induction rows with
  | nil =>
    intro i counter mc sc fc fs reps res h
    simp only [runLoop, Except.ok.injEq] at h
    subst h
    exact List.Forall₂.nil
  | cons row rest ih =>
    intro i counter mc sc fc fs reps res h
    rw [runLoop] at h
    rcases hg : pyGeLimit mc with e | b
    · rw [hg] at h
      exact absurd h (by simp)
    · rw [hg] at h
      cases b
      · rcases ha : row.fields.lookup ic with _ | addr
        · rw [ha] at h
          simp at h
        · rw [ha] at h
          simp only [] at h
          rcases hgo : geocode_address (env i).geo with e | pr
          · rw [hgo] at h
            simp at h
          · rw [hgo] at h
            obtain ⟨gres, greps⟩ := pr
            simp only [] at h
            rcases hpi : pyInc mc with e | mc'
            · rw [hpi] at h
              simp at h
            · rw [hpi] at h
              simp only [] at h
              rcases hsv : save_request_count
                  (.jobj (assocSet counter "count" mc')) (env i).saveExn with e | fs'
              · rw [hsv] at h
                simp at h
              · rw [hsv] at h
                simp only [] at h
                rcases gres with _ | cands
                · rcases hrec : runLoop env ic rest (i + 1) (assocSet counter "count" mc')
                      mc' sc (fc + 1) fs'
                      (reps ++ (correct_address_with_gemini (env i).gem addr).2 ++ greps)
                    with e | res'
                  · rw [hrec] at h
                    simp [Except.map] at h
                  · rw [hrec] at h
                    simp only [Except.map, Except.ok.injEq] at h
                    subst h
                    exact List.Forall₂.cons rfl (ih _ _ _ _ _ _ _ _ hrec)
                · rcases cands with _ | ⟨c0, cs⟩
                  · simp only [] at h
                    rcases hrec : runLoop env ic rest (i + 1) (assocSet counter "count" mc')
                        mc' sc (fc + 1) fs'
                        (reps ++ (correct_address_with_gemini (env i).gem addr).2 ++ greps)
                      with e | res'
                    · rw [hrec] at h
                      simp [Except.map] at h
                    · rw [hrec] at h
                      simp only [Except.map, Except.ok.injEq] at h
                      subst h
                      exact List.Forall₂.cons rfl (ih _ _ _ _ _ _ _ _ hrec)
                  · simp only [] at h
                    rcases hrec : runLoop env ic rest (i + 1) (assocSet counter "count" mc')
                        mc' (sc + 1) fc fs'
                        (reps ++ (correct_address_with_gemini (env i).gem addr).2 ++ greps ++
                          (refine_coordinates (env i).ref (select_location c0 cs).lat
                            (select_location c0 cs).lng).2)
                      with e | res'
                    · rw [hrec] at h
                      simp [Except.map] at h
                    · rw [hrec] at h
                      simp only [Except.map, Except.ok.injEq] at h
                      subst h
                      exact List.Forall₂.cons rfl (ih _ _ _ _ _ _ _ _ hrec)
      · simp only [Except.ok.injEq] at h
        subst h
        exact forall₂_fields_map_blank (row :: rest)

/-- C6: empty (or whitespace-only) response text and 429-classified failures
make the normalizer return the raw address unchanged with nothing reported,
and any other exception also returns the address unchanged; a JSON parse
failure and 429-classified failures make the refiner return its input
coordinate pair unchanged with nothing reported, and any other exception also
returns the pair unchanged. Both embedded functions are total, so no service
outcome escapes as an exception. -/
theorem gemini_fallback_idempotent :
    (∀ addr t, pyStrip t = "" → correct_address_with_gemini (.ok t) addr = (addr, []))
  ∧ (∀ addr, correct_address_with_gemini .noText addr = (addr, []))
  ∧ (∀ addr msg, strContains msg "429" = true →
      correct_address_with_gemini (.exn msg) addr = (addr, []))
  ∧ (∀ addr msg, (correct_address_with_gemini (.exn msg) addr).1 = addr)
  ∧ (∀ la ln, refine_coordinates .parseError la ln = ((la, ln), []))
  ∧ (∀ la ln msg, strContains msg "429" = true →
      refine_coordinates (.exn msg) la ln = ((la, ln), []))
  ∧ (∀ la ln msg, (refine_coordinates (.exn msg) la ln).1 = (la, ln)) := by
  refine ⟨?_, ?_, ?_, ?_, ?_, ?_, ?_⟩
  · intro addr t h
    simp [correct_address_with_gemini, h]
  · intro addr
    rfl
  · intro addr msg h
    simp [correct_address_with_gemini, h]
  · intro addr msg
    by_cases h : strContains msg "429" <;>
      simp [correct_address_with_gemini, h]
  · intro la ln
    rfl
  · intro la ln msg h
    simp [refine_coordinates, h]
  · intro la ln msg
    by_cases h : strContains msg "429" <;>
      simp [refine_coordinates, h]

theorem gemini_fallback_idempotent_witness :
    (correct_address_with_gemini (.ok "   ") (.jstr "千代田区1-1") =
      (.jstr "千代田区1-1", []))
  ∧ (correct_address_with_gemini (.exn "Error 429: quota") (.jstr "千代田区1-1") =
      (.jstr "千代田区1-1", []))
  ∧ (refine_coordinates (.exn "HTTP 429 rate limit") (.jnum 35) (.jnum 139) =
      ((.jnum 35, .jnum 139), [])) :=
  ⟨gemini_fallback_idempotent.1 (.jstr "千代田区1-1") "   " rfl,
   gemini_fallback_idempotent.2.2.1 (.jstr "千代田区1-1") "Error 429: quota" rfl,
   gemini_fallback_idempotent.2.2.2.2.2.1 (.jnum 35) (.jnum 139)
     "HTTP 429 rate limit" rfl⟩

/-- C7: `load_request_count` returns the fresh zero state for an absent,
unreadable or corrupt file and for any stored value that is not a dict; it
returns the fresh zero state whenever the stored `month` is missing, not a
string, or a string different from the current month; and it returns the
stored dict itself when the stored `month` equals the current month. -/
theorem load_quota_lifecycle (m : String) :
    ((load_request_count m .absent).1 = freshState m)
  ∧ ((load_request_count m .unreadable).1 = freshState m)
  ∧ ((load_request_count m .corrupt).1 = freshState m)
  ∧ (∀ v, (∀ fields, v ≠ .jobj fields) →
      (load_request_count m (.stored v)).1 = freshState m)
  ∧ (∀ fields, fields.lookup "month" = none →
      (load_request_count m (.stored (.jobj fields))).1 = freshState m)
  ∧ (∀ fields mv, fields.lookup "month" = some mv → (∀ s, mv ≠ .jstr s) →
      (load_request_count m (.stored (.jobj fields))).1 = freshState m)
  ∧ (∀ fields m', fields.lookup "month" = some (.jstr m') → m' ≠ m →
      (load_request_count m (.stored (.jobj fields))).1 = freshState m)
  ∧ (∀ fields, fields.lookup "month" = some (.jstr m) →
      (load_request_count m (.stored (.jobj fields))).1 = .jobj fields) := by
  refine ⟨rfl, rfl, rfl, ?_, ?_, ?_, ?_, ?_⟩
  · intro v hv
    rcases v with _ | b | n | s | xs | fields
    · rfl
    · rfl
    · rfl
    · rfl
    · rfl
    · exact absurd rfl (hv fields)
  · intro fields h
    simp [load_request_count, h]
  · intro fields mv h hs
    rcases mv with _ | b | n | s | xs | f2
    · simp [load_request_count, h]
    · simp [load_request_count, h]
    · simp [load_request_count, h]
    · exact absurd rfl (hs s)
    · simp [load_request_count, h]
    · simp [load_request_count, h]
  · intro fields m' h hne
    simp [load_request_count, h, hne]
  · intro fields h
    simp [load_request_count, h]

theorem load_quota_lifecycle_witness :
    ((load_request_count "2026-10"
        (.stored (.jobj [("month", .jstr "2026-09"), ("count", .jnum 9000)]))).1 =
      freshState "2026-10")
  ∧ ((load_request_count "2026-10"
        (.stored (.jobj [("month", .jstr "2026-10"), ("count", .jnum 17)]))).1 =
      .jobj [("month", .jstr "2026-10"), ("count", .jnum 17)])
  ∧ ((load_request_count "2026-10" (.stored (.jarr []))).1 = freshState "2026-10") :=
  ⟨(load_quota_lifecycle "2026-10").2.2.2.2.2.2.1
      [("month", .jstr "2026-09"), ("count", .jnum 9000)] "2026-09" rfl (by decide),
   (load_quota_lifecycle "2026-10").2.2.2.2.2.2.2
      [("month", .jstr "2026-10"), ("count", .jnum 17)] rfl,
   (load_quota_lifecycle "2026-10").2.2.2.1 (.jarr [])
      (fun fields h => JVal.noConfusion h)⟩

/-- C8 counterexample: with a refinement response `{"lat": "35.0x", "lng":
"139.0y"}` the pipeline writes the string values into the output cells, so
an output `latitude` is neither a float nor absent/null, contradicting the
claimed output typing. -/
theorem nonnumeric_latitude_reaches_output :
    ((perform_geocoding "2026-10" .absent envStrCoords "address" [exRow]).map
        (fun res => res.rows.map (fun o => (o.latitude, isNumOrNull o.latitude)))) =
      .ok [(.jstr "35.0x", false)] := rfl

/-- C8 (amended): for every run that completes, the output has the same
number of records in the same order and every input record's cells are
unchanged, the rows carrying only the two extra `latitude`/`longitude`
cells — but those cells hold whatever value the refinement stage produced
(or `None`), not necessarily a float. -/
theorem pipeline_preserves_row_frame (m : String) (fs : FileState)
    (env : Nat → RecordEnv) (ic : String) (rows : List Row) (res : RunResult)
    (h : perform_geocoding m fs env ic rows = .ok res) :
    List.Forall₂ (fun (r : Row) (o : OutRow) => o.fields = r.fields) rows res.rows := by
  rw [perform_geocoding] at h
  rcases hl : load_request_count m fs with ⟨data, fs1⟩
  rw [hl] at h
  rcases data with _ | b | n | s | xs | fields
  · simp at h
  · simp at h
  · simp at h
  · simp at h
  · simp at h
  · simp only [] at h
    rcases hc : fields.lookup "count" with _ | mc
    · rw [hc] at h
      simp at h
    · rw [hc] at h
      exact runLoop_fields_pres env ic rows 0 fields mc 0 0 fs1 [] res h

theorem pipeline_preserves_row_frame_witness :
    List.Forall₂ (fun (r : Row) (o : OutRow) => o.fields = r.fields) [exRow]
      [⟨exRow.fields, .jstr "35.0x", .jstr "139.0y"⟩] :=
  pipeline_preserves_row_frame "2026-10" .absent envStrCoords "address" [exRow]
    ⟨[⟨exRow.fields, .jstr "35.0x", .jstr "139.0y"⟩], 1, 0, .jnum 1,
      .stored (.jobj [("month", .jstr "2026-10"), ("count", .jnum 1)]), []⟩ rfl

/-- C9: `load_request_count` never modifies the durable quota store — for
every file state the state after the call equals the state before it — and
in particular a month rollover resets the counter only in the returned
in-memory value while the file keeps its stale contents. -/
theorem load_never_writes_store :
    (∀ m fs, (load_request_count m fs).2 = fs)
  ∧ (∀ m fields m', fields.lookup "month" = some (.jstr m') → m' ≠ m →
      (load_request_count m (.stored (.jobj fields))).1 = freshState m ∧
      (load_request_count m (.stored (.jobj fields))).2 = .stored (.jobj fields)) := by
  constructor
  · exact load_request_count_snd
  · intro m fields m' h hne
    exact ⟨by simp [load_request_count, h, hne], load_request_count_snd m _⟩

theorem load_never_writes_store_witness :
    ((load_request_count "2026-10"
        (.stored (.jobj [("month", .jstr "2025-01"), ("count", .jnum 123)]))).1 =
      freshState "2026-10")
  ∧ ((load_request_count "2026-10"
        (.stored (.jobj [("month", .jstr "2025-01"), ("count", .jnum 123)]))).2 =
      .stored (.jobj [("month", .jstr "2025-01"), ("count", .jnum 123)])) :=
  load_never_writes_store.2 "2026-10"
    [("month", .jstr "2025-01"), ("count", .jnum 123)] "2025-01" rfl (by decide)

/-- C10: when the refinement response parses to a JSON object with both a
`lat` and a `lng` key, the refiner returns those two values verbatim — no
numeric validation, arbitrary extra keys allowed — and such non-numeric
values flow into the output record's `latitude`/`longitude`, as the concrete
run with a string `lat` and numeric `lng` shows. -/
theorem refine_accepts_nonnumeric_values :
    (∀ fields la ln cl cg,
      fields.lookup "lat" = some la → fields.lookup "lng" = some ln →
      refine_coordinates (.parsed (.jobj fields)) cl cg = ((la, ln), []))
  ∧ ((perform_geocoding "2026-10" .absent envMixed "address" [exRow]).map
        (fun res => res.rows.map (fun o => (o.latitude, o.longitude))) =
      .ok [(.jstr "not-a-number", .jnum 139)]) := by
  constructor
  · intro fields la ln cl cg h1 h2
    simp [refine_coordinates, h1, h2]
  · rfl

theorem refine_accepts_nonnumeric_values_witness :
    refine_coordinates
        (.parsed (.jobj [("lat", .jstr "northish"), ("lng", .jbool true), ("extra", .jnull)]))
        (.jnum 1) (.jnum 2) =
      ((.jstr "northish", .jbool true), []) :=
  refine_accepts_nonnumeric_values.1
    [("lat", .jstr "northish"), ("lng", .jbool true), ("extra", .jnull)]
    (.jstr "northish") (.jbool true) (.jnum 1) (.jnum 2) rfl rfl
